import Mathlib

/-!
# Verification of the go-cdn-booster request-orchestration and cache-framing layer

Shallow embedding of `apps/go/cdn-booster/main.go` (the CDN booster caching
proxy of the ybc repository).  Byte sequences are modelled as `List Nat`
(every element standing for one byte), the per-request control flow of
`requestHandler` / `fetchFromUpstream` is embedded as pure functions over an
explicit oracle (`World`) describing what the external collaborators — the
ybc cache engine, the upstream HTTP client and the set transaction — return
at each call site, and the observable effects of one request (HTTP outcome,
statistics-counter increments, transaction events) are collected in a result
structure.
-/

namespace CdnBooster

/-- The bytes of the string `application/octet-stream`, the fallback
content type substituted by `fetchFromUpstream` when the upstream response
carries an empty `Content-Type` header. -/
def defaultContentType : List Nat :=
  [97, 112, 112, 108, 105, 99, 97, 116, 105, 111, 110, 47,
   111, 99, 116, 101, 116, 45, 115, 116, 114, 101, 97, 109]

/-- Result of running `storeContentType` against a destination writer that
accepts every write: the bytes that reached the writer, and whether the
function returned without error. -/
structure StoreRun where
  written : List Nat
  ok : Bool
deriving DecidableEq, Repr

/-- Embedding of `storeContentType` (main.go lines 318-337) over a
non-failing writer: if the content type is longer than 255 bytes the
function errors out before any write; otherwise it writes the one-byte
length followed by the content-type bytes. -/
def storeContentType (contentType : List Nat) : StoreRun :=
  if contentType.length > 255 then ⟨[], false⟩
  else ⟨[contentType.length] ++ contentType, true⟩

/-- The Envelope encoder of the spec: the blob produced by running
`storeContentType` and then appending the body, or `none` when
`storeContentType` fails. -/
def encode (contentType body : List Nat) : Option (List Nat) :=
  let r := storeContentType contentType
  if r.ok then some (r.written ++ body) else none

/-- Modelled from the spec: the reader handed to `loadContentType` is a
`ybc.Item` (`bindings/go/ybc`, code of this repository not present under
`src/`), so its `Read` semantics over the stored blob are taken from the
spec's decode contract — read the 1-byte length, then that many bytes as
content type, treat the remainder of the blob as body, and fail if the
blob is shorter than the declared prefix length.  The control flow is the
embedding of `loadContentType` (main.go lines 339-353) together with the
body extraction of `requestHandler` (the bytes left after the content
type are the body). -/
def loadContentType : List Nat → Option (List Nat × List Nat)
  | [] => none
  | n :: rest =>
    if rest.length < n then none
    else some (rest.take n, rest.drop n)

theorem take_append_self (a b : List Nat) : (a ++ b).take a.length = a := by
  induction a with
  | nil => simp
  | cons x xs ih => simp [ih]

theorem drop_append_self (a b : List Nat) : (a ++ b).drop a.length = b := by
  induction a with
  | nil => simp
  | cons x xs ih => simp [ih]

/-- Claim C1: for every content type of length at most 255 bytes and every
body (including the empty one), decoding the blob produced by encoding the
pair yields back exactly the same content type and body. -/
theorem c1_encode_decode_roundtrip (contentType body : List Nat)
    (h : contentType.length ≤ 255) :
    (encode contentType body).bind loadContentType = some (contentType, body) := by
  have hnot : ¬ contentType.length > 255 := by omega
  simp only [encode, storeContentType, hnot, if_neg, ite_false, if_true]
  simp only [List.singleton_append, Option.bind_some, loadContentType]
  have hlen : ¬ (contentType ++ body).length < contentType.length := by
    simp [List.length_append]
  simp [hlen, take_append_self, drop_append_self]

theorem c1_encode_decode_roundtrip_witness :
    ([99, 115, 115] : List Nat).length ≤ 255 ∧
      (encode [99, 115, 115] [1, 2, 3]).bind loadContentType
        = some ([99, 115, 115], [1, 2, 3]) :=
  ⟨by decide, c1_encode_decode_roundtrip [99, 115, 115] [1, 2, 3] (by decide)⟩

/-- Claim C6: for every content type longer than 255 bytes, `storeContentType`
fails and writes no bytes at all to the destination before failing. -/
theorem c6_overlong_content_type_no_partial_write (contentType : List Nat)
    (h : contentType.length > 255) :
    (storeContentType contentType).ok = false ∧
      (storeContentType contentType).written = [] := by
  simp [storeContentType, h]

theorem c6_overlong_content_type_no_partial_write_witness :
    (storeContentType (List.replicate 256 120)).ok = false ∧
      (storeContentType (List.replicate 256 120)).written = [] :=
  c6_overlong_content_type_no_partial_write (List.replicate 256 120)
    (by rw [List.length_replicate]; omega)

/-- The relevant process configuration: the stats page path, the
`useClientRequestHost` flag and the fixed upstream host bytes. -/
structure Config where
  statsRequestPath : List Nat
  useClientRequestHost : Bool
  upstreamHostBytes : List Nat
deriving DecidableEq, Repr

/-- The parts of a parsed request that `requestHandler` inspects: the
method (GET or not), the request URI (path plus query), the client-supplied
`Host` header bytes, and whether an `If-None-Match` header is present
(`len(h.Peek("If-None-Match")) > 0`). -/
structure Request where
  isGet : Bool
  requestURI : List Nat
  host : List Nat
  hasIfNoneMatch : Bool
deriving DecidableEq, Repr

/-- Embedding of `getRequestHost` (main.go lines 357-362): the client host
when `useClientRequestHost` is set, the fixed upstream host otherwise. -/
def getRequestHost (cfg : Config) (req : Request) : List Nat :=
  if cfg.useClientRequestHost then req.host else cfg.upstreamHostBytes

/-- The cache key built in `requestHandler` (main.go lines 215-221): the
selected host bytes followed by the request URI, appended into a pooled
buffer that is reset (`key[:0]`) before use. -/
def requestKey (cfg : Config) (req : Request) : List Nat :=
  getRequestHost cfg req ++ req.requestURI

/-- What `cache.GetDeItem` returns for this request's key: a hit carrying
the stored blob, the `ybc.ErrCacheMiss` error, or any other error. -/
inductive CacheGetResult where
  | hit (blob : List Nat)
  | missErr
  | otherErr
deriving DecidableEq, Repr

/-- An upstream HTTP response as consumed by `fetchFromUpstream`: status
code, `Content-Type` header bytes (possibly empty) and body bytes. -/
structure UpstreamResponse where
  statusCode : Nat
  contentType : List Nat
  body : List Nat
deriving DecidableEq, Repr

/-- Outcome of the upstream interaction in `fetchFromUpstream`: failure of
`http.NewRequest`, of `upstreamClient.Do`, of `ioutil.ReadAll`, or a
complete response. -/
inductive UpstreamResult where
  | reqErr
  | doErr
  | readErr
  | ok (resp : UpstreamResponse)
deriving DecidableEq, Repr

/-- Oracle for the set-transaction calls made by `fetchFromUpstream`:
whether `cache.NewSetTxn` succeeds, whether each of the two
`storeContentType` writes succeeds, the `(n, err)` result of the body
write (`none` is an error, `some n` reports `n` bytes written), and
whether `txn.CommitItem` succeeds. -/
structure TxnOracle where
  beginOk : Bool
  writeSizeOk : Bool
  writeCtOk : Bool
  bodyWrite : Option Nat
  commitOk : Bool
deriving DecidableEq, Repr

/-- Everything the external collaborators return during one request. -/
structure World where
  cacheGet : CacheGetResult
  upstream : UpstreamResult
  txn : TxnOracle
deriving DecidableEq, Repr

/-- Observable interactions with the cache engine's set transaction, in
call order.  A `beginPut` event records the `itemSize` passed to
`NewSetTxn`; a `write` event records the bytes a successful (or
partially-reported) `Write` call stored; `rollback` and `commit` record the
corresponding calls (`commit` only when `CommitItem` succeeds). -/
inductive TxnEvent where
  | beginPut (size : Nat)
  | write (bytes : List Nat)
  | rollback
  | commit
deriving DecidableEq, Repr

/-- The content type actually stored: the upstream header, or
`application/octet-stream` when that header is empty (main.go lines
281-284). -/
def ctFinal (resp : UpstreamResponse) : List Nat :=
  if resp.contentType = [] then defaultContentType else resp.contentType

/-- Result of `fetchFromUpstream`: the committed item's blob (`none` when
the function returns `nil`), the transaction events that occurred, and the
increment applied to the `BytesReadFromUpstream` counter. -/
structure FetchRun where
  item : Option (List Nat)
  events : List TxnEvent
  bytesReadDelta : Nat
deriving DecidableEq, Repr

/-- Embedding of `fetchFromUpstream` (main.go lines 255-316).  Mirrors the
source's control flow: fail on request-construction, transport or
body-read errors and on any non-200 status without touching the cache;
otherwise substitute the default content type if needed, start a set
transaction sized `len(body) + len(contentType) + 1`, run
`storeContentType` (rolling back on its failure), write the body (rolling
back on a write error or a short write), and commit — a commit error
returns `nil` without a rollback call.  On success the committed blob is
the envelope bytes and `BytesReadFromUpstream` grows by the body length. -/
def fetchFromUpstream (w : World) : FetchRun :=
  match w.upstream with
  | .reqErr => ⟨none, [], 0⟩
  | .doErr => ⟨none, [], 0⟩
  | .readErr => ⟨none, [], 0⟩
  | .ok resp =>
    if resp.statusCode ≠ 200 then ⟨none, [], 0⟩
    else
      let ct := ctFinal resp
      let itemSize := resp.body.length + ct.length + 1
      if w.txn.beginOk = false then ⟨none, [], 0⟩
      else if ct.length > 255 then
        ⟨none, [.beginPut itemSize, .rollback], 0⟩
      else if w.txn.writeSizeOk = false then
        ⟨none, [.beginPut itemSize, .rollback], 0⟩
      else if w.txn.writeCtOk = false then
        ⟨none, [.beginPut itemSize, .write [ct.length], .rollback], 0⟩
      else
        match w.txn.bodyWrite with
        | none =>
          ⟨none, [.beginPut itemSize, .write [ct.length], .write ct, .rollback], 0⟩
        | some n =>
          if n ≠ resp.body.length then
            ⟨none, [.beginPut itemSize, .write [ct.length], .write ct,
                    .write (resp.body.take n), .rollback], 0⟩
          else if w.txn.commitOk = false then
            ⟨none, [.beginPut itemSize, .write [ct.length], .write ct,
                    .write resp.body], 0⟩
          else
            ⟨some ([ct.length] ++ ct ++ resp.body),
             [.beginPut itemSize, .write [ct.length], .write ct,
              .write resp.body, .commit],
             resp.body.length⟩

/-- The HTTP-level outcome `requestHandler` produces for one request.
`fatal` is not a response: it marks the `logFatal` call that terminates
the whole process. -/
inductive Outcome where
  | methodNotAllowed
  | statsPage
  | notModified
  | serviceUnavailable
  | internalError
  | success (contentType body : List Nat)
  | fatal
deriving DecidableEq, Repr

/-- The increments one request applies to the five `Stats` counters. -/
structure StatsDelta where
  cacheHits : Nat
  cacheMisses : Nat
  ifNoneMatchHits : Nat
  bytesReadFromUpstream : Nat
  bytesSentToClients : Nat
deriving DecidableEq, Repr

/-- The all-zero counter increment. -/
def StatsDelta.zero : StatsDelta := ⟨0, 0, 0, 0, 0⟩

/-- Everything observable about one `requestHandler` invocation: the HTTP
outcome, the counter increments, whether `cache.GetDeItem` was called,
whether `fetchFromUpstream` was invoked, and the transaction events. -/
structure HandlerRun where
  outcome : Outcome
  delta : StatsDelta
  cacheGetCalled : Bool
  upstreamCalled : Bool
  txnEvents : List TxnEvent
deriving DecidableEq, Repr

/-- Embedding of `requestHandler` (main.go lines 194-253).  Decision order
as in the source: non-GET → 405; URI equal to the stats path → stats page;
`If-None-Match` present → 304 plus the conditional-hit counter; otherwise
look up the cache key.  A non-miss lookup error is fatal to the process.
A hit increments the hit counter and then decodes the envelope, answering
500 on decode failure and the stored content type and body (plus the
bytes-sent counter) on success.  A miss increments the miss counter and
runs `fetchFromUpstream`, answering 503 when it fails and otherwise
decoding the committed item exactly like a hit. -/
def requestHandler (cfg : Config) (req : Request) (w : World) : HandlerRun :=
  if req.isGet = false then ⟨.methodNotAllowed, .zero, false, false, []⟩
  else if req.requestURI = cfg.statsRequestPath then
    ⟨.statsPage, .zero, false, false, []⟩
  else if req.hasIfNoneMatch then
    ⟨.notModified, ⟨0, 0, 1, 0, 0⟩, false, false, []⟩
  else
    match w.cacheGet with
    | .otherErr => ⟨.fatal, .zero, true, false, []⟩
    | .hit blob =>
      match loadContentType blob with
      | none => ⟨.internalError, ⟨1, 0, 0, 0, 0⟩, true, false, []⟩
      | some (ct, body) =>
        ⟨.success ct body, ⟨1, 0, 0, 0, body.length⟩, true, false, []⟩
    | .missErr =>
      let f := fetchFromUpstream w
      match f.item with
      | none => ⟨.serviceUnavailable, ⟨0, 1, 0, 0, 0⟩, true, true, f.events⟩
      | some blob =>
        match loadContentType blob with
        | none =>
          ⟨.internalError, ⟨0, 1, 0, f.bytesReadDelta, 0⟩, true, true, f.events⟩
        | some (ct, body) =>
          ⟨.success ct body, ⟨0, 1, 0, f.bytesReadDelta, body.length⟩,
           true, true, f.events⟩

/-- Whether a successful `commit` occurs in a transaction-event trace.
Only a committed transaction makes an entry visible to readers. -/
def hasCommit : List TxnEvent → Bool
  | [] => false
  | .commit :: _ => true
  | _ :: es => hasCommit es

/-- Whether a `rollback` call occurs in a transaction-event trace. -/
def hasRollback : List TxnEvent → Bool
  | [] => false
  | .rollback :: _ => true
  | _ :: es => hasRollback es

/-- The `itemSize` passed to the first `beginPut` of a trace, if any. -/
def beginSize : List TxnEvent → Option Nat
  | [] => none
  | .beginPut s :: _ => some s
  | .write _ :: es => beginSize es
  | .rollback :: es => beginSize es
  | .commit :: es => beginSize es

/-- Total number of bytes stored by the `write` events of a trace. -/
def writtenBytes : List TxnEvent → Nat
  | [] => 0
  | .write bs :: es => bs.length + writtenBytes es
  | .beginPut _ :: es => writtenBytes es
  | .rollback :: es => writtenBytes es
  | .commit :: es => writtenBytes es

/-- Whether the upstream interaction counts as a failure for
`fetchFromUpstream`: a request-construction, transport or body-read error,
or a response status other than 200. -/
def upstreamFailed : UpstreamResult → Bool
  | .reqErr => true
  | .doErr => true
  | .readErr => true
  | .ok resp => resp.statusCode != 200

theorem fetchFromUpstream_failed (w : World) (hFail : upstreamFailed w.upstream = true) :
    fetchFromUpstream w = ⟨none, [], 0⟩ := by
  cases hu : w.upstream with
  | reqErr => simp [fetchFromUpstream, hu]
  | doErr => simp [fetchFromUpstream, hu]
  | readErr => simp [fetchFromUpstream, hu]
  | ok resp =>
    have h200 : resp.statusCode ≠ 200 := by
      rw [hu] at hFail
      simpa [upstreamFailed] using hFail
    simp [fetchFromUpstream, hu, h200]

/-- Claim C2: a GET request carrying an `If-None-Match` header and not
targeting the stats path is answered 304 with only the conditional-hit
counter incremented; the cache engine, the upstream fetcher and the set
transaction are never touched, whatever the path, host or oracle world. -/
theorem c2_conditional_short_circuit (cfg : Config) (req : Request) (w : World)
    (hGet : req.isGet = true)
    (hStats : req.requestURI ≠ cfg.statsRequestPath)
    (hInm : req.hasIfNoneMatch = true) :
    requestHandler cfg req w =
      ⟨.notModified, ⟨0, 0, 1, 0, 0⟩, false, false, []⟩ := by
  simp [requestHandler, hGet, hStats, hInm]

theorem c2_conditional_short_circuit_witness :
    requestHandler ⟨[47, 115], false, [117]⟩ ⟨true, [47, 120], [104], true⟩
        ⟨.missErr, .reqErr, ⟨true, true, true, some 0, true⟩⟩ =
      ⟨.notModified, ⟨0, 0, 1, 0, 0⟩, false, false, []⟩ :=
  c2_conditional_short_circuit _ _ _ rfl (by decide) rfl

/-- Claim C4: on a cache miss whose upstream fetch fails (request error,
transport error, body-read error, or a non-200 status), the client gets a
503, only the miss counter is incremented, the upstream fetcher was
invoked, and no transaction event occurs at all — in particular nothing is
committed, so the cache entry for this key stays absent and an identical
later request faces the same miss world again. -/
theorem c4_upstream_failure_no_cache_write (cfg : Config) (req : Request) (w : World)
    (hGet : req.isGet = true)
    (hStats : req.requestURI ≠ cfg.statsRequestPath)
    (hInm : req.hasIfNoneMatch = false)
    (hMiss : w.cacheGet = .missErr)
    (hFail : upstreamFailed w.upstream = true) :
    requestHandler cfg req w =
      ⟨.serviceUnavailable, ⟨0, 1, 0, 0, 0⟩, true, true, []⟩ := by
  have hf := fetchFromUpstream_failed w hFail
  simp [requestHandler, hGet, hStats, hInm, hMiss, hf]

theorem c4_upstream_failure_no_cache_write_witness :
    requestHandler ⟨[47, 115], false, [117]⟩ ⟨true, [47, 120], [104], false⟩
        ⟨.missErr, .ok ⟨404, [97], [66]⟩, ⟨true, true, true, some 1, true⟩⟩ =
      ⟨.serviceUnavailable, ⟨0, 1, 0, 0, 0⟩, true, true, []⟩ :=
  c4_upstream_failure_no_cache_write _ _ _ rfl (by decide) rfl rfl (by decide)

/-- Claim C10: the handler aborts the whole process (the `logFatal` branch)
exactly when the request reaches the cache lookup — a GET neither for the
stats path nor conditional — and `GetDeItem` returns an error other than
`ErrCacheMiss`; every other lookup outcome is a hit or a miss, and no
per-request error response is produced for such an error. -/
theorem c10_get_error_fatal_iff (cfg : Config) (req : Request) (w : World) :
    (requestHandler cfg req w).outcome = .fatal ↔
      (req.isGet = true ∧ req.requestURI ≠ cfg.statsRequestPath ∧
       req.hasIfNoneMatch = false ∧ w.cacheGet = .otherErr) := by
  cases hg : req.isGet with
  | false => simp [requestHandler, hg]
  | true =>
    by_cases hs : req.requestURI = cfg.statsRequestPath
    · simp [requestHandler, hg, hs]
    · cases hi : req.hasIfNoneMatch with
      | true => simp [requestHandler, hg, hs, hi]
      | false =>
        cases hc : w.cacheGet with
        | otherErr => simp [requestHandler, hg, hs, hi, hc]
        | hit blob =>
          cases hl : loadContentType blob with
          | none => simp [requestHandler, hg, hs, hi, hc, hl]
          | some p =>
            rcases p with ⟨ct, body⟩
            simp [requestHandler, hg, hs, hi, hc, hl]
        | missErr =>
          cases hfi : (fetchFromUpstream w).item with
          | none => simp [requestHandler, hg, hs, hi, hc, hfi]
          | some blob =>
            cases hl : loadContentType blob with
            | none => simp [requestHandler, hg, hs, hi, hc, hfi, hl]
            | some p =>
              rcases p with ⟨ct, body⟩
              simp [requestHandler, hg, hs, hi, hc, hfi, hl]

theorem c10_get_error_fatal_iff_witness :
    (requestHandler ⟨[47, 115], false, [117]⟩ ⟨true, [47, 120], [104], false⟩
        ⟨.otherErr, .reqErr, ⟨true, true, true, some 0, true⟩⟩).outcome = .fatal :=
  (c10_get_error_fatal_iff _ _ _).2 ⟨rfl, by decide, rfl, rfl⟩

/-- Claim C3 counterexample: a cache hit whose stored blob is empty makes
`loadContentType` fail, so the request is answered 500 — yet the hit
counter was already incremented before the decode, contradicting the
claim that the hit counter is incremented only on decode success. -/
theorem c3_hit_decode_counterexample :
    (requestHandler ⟨[47, 115], false, [117]⟩ ⟨true, [47, 120], [104], false⟩
        ⟨.hit [], .reqErr, ⟨true, true, true, some 0, true⟩⟩).outcome
      = .internalError ∧
    (requestHandler ⟨[47, 115], false, [117]⟩ ⟨true, [47, 120], [104], false⟩
        ⟨.hit [], .reqErr, ⟨true, true, true, some 0, true⟩⟩).delta.cacheHits = 1 := by
  decide

/-- Claim C3 as amended: on a cache hit the hit counter is incremented
unconditionally, before the Envelope is decoded; on decode failure the
request yields a 500 with no fallback fetch to upstream (and no bytes-sent
update); only on decode success is the body length added to the bytes-sent
counter and the stored content type and body returned. -/
theorem c3_hit_decode_amended (cfg : Config) (req : Request) (w : World)
    (blob : List Nat)
    (hGet : req.isGet = true)
    (hStats : req.requestURI ≠ cfg.statsRequestPath)
    (hInm : req.hasIfNoneMatch = false)
    (hHit : w.cacheGet = .hit blob) :
    (loadContentType blob = none →
       requestHandler cfg req w =
         ⟨.internalError, ⟨1, 0, 0, 0, 0⟩, true, false, []⟩) ∧
    (∀ ct body, loadContentType blob = some (ct, body) →
       requestHandler cfg req w =
         ⟨.success ct body, ⟨1, 0, 0, 0, body.length⟩, true, false, []⟩) := by
  constructor
  · intro hl
    simp [requestHandler, hGet, hStats, hInm, hHit, hl]
  · intro ct body hl
    simp [requestHandler, hGet, hStats, hInm, hHit, hl]

theorem c3_hit_decode_amended_witness :
    requestHandler ⟨[47, 115], false, [117]⟩ ⟨true, [47, 120], [104], false⟩
        ⟨.hit [1, 97, 66, 67], .reqErr, ⟨true, true, true, some 0, true⟩⟩ =
      ⟨.success [97] [66, 67], ⟨1, 0, 0, 0, 2⟩, true, false, []⟩ :=
  (c3_hit_decode_amended _ _ _ [1, 97, 66, 67] rfl (by decide) rfl rfl).2
    [97] [66, 67] (by decide)

/-- Claim C9: counter discipline.  Requests answered 405 (non-GET) and
requests for the stats path change no counters at all; every other request
increments exactly one of the three request-classification counters
(conditional hits, cache hits, cache misses) by exactly one: a conditional
request touches only the conditional-hit counter (and no byte counter),
a cache hit increments the hit counter once and leaves the miss and
conditional counters at zero, and a cache miss increments the miss counter
once and leaves the hit and conditional counters at zero. -/
theorem c9_counter_discipline (cfg : Config) (req : Request) (w : World) :
    (req.isGet = false → (requestHandler cfg req w).delta = .zero) ∧
    (req.requestURI = cfg.statsRequestPath →
       (requestHandler cfg req w).delta = .zero) ∧
    (req.isGet = true → req.requestURI ≠ cfg.statsRequestPath →
       req.hasIfNoneMatch = true →
       (requestHandler cfg req w).delta = ⟨0, 0, 1, 0, 0⟩) ∧
    (∀ blob, req.isGet = true → req.requestURI ≠ cfg.statsRequestPath →
       req.hasIfNoneMatch = false → w.cacheGet = .hit blob →
       (requestHandler cfg req w).delta.cacheHits = 1 ∧
       (requestHandler cfg req w).delta.cacheMisses = 0 ∧
       (requestHandler cfg req w).delta.ifNoneMatchHits = 0) ∧
    (req.isGet = true → req.requestURI ≠ cfg.statsRequestPath →
       req.hasIfNoneMatch = false → w.cacheGet = .missErr →
       (requestHandler cfg req w).delta.cacheMisses = 1 ∧
       (requestHandler cfg req w).delta.cacheHits = 0 ∧
       (requestHandler cfg req w).delta.ifNoneMatchHits = 0) := by
  refine ⟨?_, ?_, ?_, ?_, ?_⟩
  · intro hg
    simp [requestHandler, hg]
  · intro hs
    cases hg : req.isGet with
    | false => simp [requestHandler, hg]
    | true => simp [requestHandler, hg, hs]
  · intro hg hs hi
    simp [requestHandler, hg, hs, hi]
  · intro blob hg hs hi hc
    cases hl : loadContentType blob with
    | none => simp [requestHandler, hg, hs, hi, hc, hl]
    | some p =>
      rcases p with ⟨ct, body⟩
      simp [requestHandler, hg, hs, hi, hc, hl]
  · intro hg hs hi hc
    cases hfi : (fetchFromUpstream w).item with
    | none => simp [requestHandler, hg, hs, hi, hc, hfi]
    | some blob =>
      cases hl : loadContentType blob with
      | none => simp [requestHandler, hg, hs, hi, hc, hfi, hl]
      | some p =>
        rcases p with ⟨ct, body⟩
        simp [requestHandler, hg, hs, hi, hc, hfi, hl]

theorem c9_counter_discipline_witness :
    (requestHandler ⟨[47, 115], false, [117]⟩ ⟨false, [47, 120], [104], false⟩
        ⟨.missErr, .reqErr, ⟨true, true, true, some 0, true⟩⟩).delta = .zero :=
  (c9_counter_discipline _ _ _).1 rfl

theorem requestHandler_miss_run (cfg : Config) (req : Request) (w : World)
    (hGet : req.isGet = true)
    (hStats : req.requestURI ≠ cfg.statsRequestPath)
    (hInm : req.hasIfNoneMatch = false)
    (hMiss : w.cacheGet = .missErr) :
    (requestHandler cfg req w).txnEvents = (fetchFromUpstream w).events ∧
    ((fetchFromUpstream w).item = none →
       (requestHandler cfg req w).outcome = .serviceUnavailable) := by
  cases hfi : (fetchFromUpstream w).item with
  | none => simp [requestHandler, hGet, hStats, hInm, hMiss, hfi]
  | some blob =>
    cases hl : loadContentType blob with
    | none => simp [requestHandler, hGet, hStats, hInm, hMiss, hfi, hl]
    | some p =>
      rcases p with ⟨ct, body⟩
      simp [requestHandler, hGet, hStats, hInm, hMiss, hfi, hl]

/-- Whether the write stage of the populate transaction runs to completion:
the stored content type fits its one-byte length field, both
`storeContentType` writes succeed, and the body write reports exactly the
body length. -/
def writesOk (t : TxnOracle) (resp : UpstreamResponse) : Bool :=
  decide ((ctFinal resp).length ≤ 255) && t.writeSizeOk && t.writeCtOk &&
    (match t.bodyWrite with
     | none => false
     | some n => n == resp.body.length)

theorem fetch_begin_size_and_commit_bytes (w : World) (resp : UpstreamResponse)
    (hUp : w.upstream = .ok resp) (h200 : resp.statusCode = 200) :
    (∀ s, beginSize (fetchFromUpstream w).events = some s →
        s = 1 + (ctFinal resp).length + resp.body.length) ∧
    (hasCommit (fetchFromUpstream w).events = true →
        writtenBytes (fetchFromUpstream w).events
          = 1 + (ctFinal resp).length + resp.body.length) := by
  unfold fetchFromUpstream
  rw [hUp]
  simp only [h200, ne_eq, not_true_eq_false, if_false]
  cases hb : w.txn.beginOk with
  | false => simp [beginSize, hasCommit]
  | true =>
    by_cases hct : (ctFinal resp).length > 255
    · simp [hct, beginSize, hasCommit]
      omega
    · simp only [hb, hct, if_true, if_false, Bool.true_eq_false, ite_false, ite_true]
      cases hws : w.txn.writeSizeOk with
      | false =>
        simp [beginSize, hasCommit]
        omega
      | true =>
        cases hwc : w.txn.writeCtOk with
        | false =>
          simp [beginSize, hasCommit]
          omega
        | true =>
          cases hbw : w.txn.bodyWrite with
          | none =>
            simp [beginSize, hasCommit]
            omega
          | some n =>
            by_cases hn : n = resp.body.length
            · cases hco : w.txn.commitOk with
              | false =>
                simp [hn, beginSize, hasCommit]
                omega
              | true =>
                simp [hn, beginSize, hasCommit, writtenBytes]
                omega
            · simp [hn, beginSize, hasCommit]
              omega

/-- Claim C8: on a cache miss with a successful upstream fetch, whenever a
set transaction is begun its `itemSize` equals the exact final blob size —
one length byte plus the stored content type (after the empty-header
fallback) plus the body — and whenever the transaction commits, the bytes
written through it sum to exactly that size. -/
theorem c8_total_size_exact (cfg : Config) (req : Request) (w : World)
    (resp : UpstreamResponse)
    (hGet : req.isGet = true)
    (hStats : req.requestURI ≠ cfg.statsRequestPath)
    (hInm : req.hasIfNoneMatch = false)
    (hMiss : w.cacheGet = .missErr)
    (hUp : w.upstream = .ok resp)
    (h200 : resp.statusCode = 200) :
    (∀ s, beginSize (requestHandler cfg req w).txnEvents = some s →
        s = 1 + (ctFinal resp).length + resp.body.length) ∧
    (hasCommit (requestHandler cfg req w).txnEvents = true →
        writtenBytes (requestHandler cfg req w).txnEvents
          = 1 + (ctFinal resp).length + resp.body.length) := by
  have hev := (requestHandler_miss_run cfg req w hGet hStats hInm hMiss).1
  rw [hev]
  exact fetch_begin_size_and_commit_bytes w resp hUp h200

theorem c8_total_size_exact_witness :
    beginSize (requestHandler ⟨[47, 115], false, [117]⟩
        ⟨true, [47, 120], [104], false⟩
        ⟨.missErr, .ok ⟨200, [97], [66, 67]⟩,
         ⟨true, true, true, some 2, true⟩⟩).txnEvents = some 4 ∧
      (4 : Nat) = 1 + (ctFinal ⟨200, [97], [66, 67]⟩).length +
        ([66, 67] : List Nat).length :=
  ⟨by decide,
   (c8_total_size_exact ⟨[47, 115], false, [117]⟩ ⟨true, [47, 120], [104], false⟩
       ⟨.missErr, .ok ⟨200, [97], [66, 67]⟩, ⟨true, true, true, some 2, true⟩⟩
       ⟨200, [97], [66, 67]⟩ rfl (by decide) rfl rfl rfl rfl).1 4 (by decide)⟩

theorem fetch_step_failure (w : World) (resp : UpstreamResponse)
    (hUp : w.upstream = .ok resp) (h200 : resp.statusCode = 200)
    (hFail : (w.txn.beginOk && writesOk w.txn resp && w.txn.commitOk) = false) :
    (fetchFromUpstream w).item = none ∧
    hasCommit (fetchFromUpstream w).events = false ∧
    (w.txn.beginOk = false ∨
     hasRollback (fetchFromUpstream w).events = true ∨
     (writesOk w.txn resp = true ∧ w.txn.commitOk = false)) := by
  unfold fetchFromUpstream
  rw [hUp]
  simp only [h200, ne_eq, not_true_eq_false, if_false]
  cases hb : w.txn.beginOk with
  | false => simp [hasCommit]
  | true =>
    by_cases hct : (ctFinal resp).length > 255
    · simp [hct, hasCommit, hasRollback]
    · simp only [hb, hct, if_true, if_false, Bool.true_eq_false, ite_false, ite_true]
      cases hws : w.txn.writeSizeOk with
      | false => simp [hasCommit, hasRollback]
      | true =>
        cases hwc : w.txn.writeCtOk with
        | false => simp [hasCommit, hasRollback]
        | true =>
          cases hbw : w.txn.bodyWrite with
          | none => simp [hasCommit, hasRollback]
          | some n =>
            by_cases hn : n = resp.body.length
            · cases hco : w.txn.commitOk with
              | false =>
                refine ⟨by simp [hn], by simp [hn, hasCommit], Or.inr (Or.inr ⟨?_, rfl⟩)⟩
                have hle : (ctFinal resp).length ≤ 255 := by omega
                simp [writesOk, hws, hwc, hbw, hn, hle]
              | true =>
                exfalso
                have hle : (ctFinal resp).length ≤ 255 := by omega
                rw [hb, hco, writesOk, hws, hwc, hbw] at hFail
                simp [hn, hle] at hFail
            · simp [hn, hasCommit, hasRollback]

/-- Claim C5 counterexample: a populate transaction whose `CommitItem` call
fails.  The client is answered 503 and the transaction had begun
(`beginPut` with size 3) — yet no `Rollback` call is made on this path,
contradicting the claim that every failing transaction step is rolled back
before returning. -/
theorem c5_commit_failure_counterexample :
    (requestHandler ⟨[47, 115], false, [117]⟩ ⟨true, [47, 120], [104], false⟩
        ⟨.missErr, .ok ⟨200, [97], [66]⟩, ⟨true, true, true, some 1, false⟩⟩).outcome
      = .serviceUnavailable ∧
    beginSize (requestHandler ⟨[47, 115], false, [117]⟩
        ⟨true, [47, 120], [104], false⟩
        ⟨.missErr, .ok ⟨200, [97], [66]⟩,
         ⟨true, true, true, some 1, false⟩⟩).txnEvents = some 3 ∧
    hasRollback (requestHandler ⟨[47, 115], false, [117]⟩
        ⟨true, [47, 120], [104], false⟩
        ⟨.missErr, .ok ⟨200, [97], [66]⟩,
         ⟨true, true, true, some 1, false⟩⟩).txnEvents = false ∧
    hasCommit (requestHandler ⟨[47, 115], false, [117]⟩
        ⟨true, [47, 120], [104], false⟩
        ⟨.missErr, .ok ⟨200, [97], [66]⟩,
         ⟨true, true, true, some 1, false⟩⟩).txnEvents = false := by
  decide

/-- Claim C5 as amended: on a cache miss with a successful upstream fetch,
if any transaction step fails — begin, the content-type-prefix write, the
content-type write, the body write, a short body write, or commit — the
client receives 503 and no entry is committed (so no partial entry is
visible); a failure in any write step is followed by an explicit rollback
before returning, while a begin failure leaves no transaction to roll back
and a commit failure returns without an explicit rollback call. -/
theorem c5_txn_failure_amended (cfg : Config) (req : Request) (w : World)
    (resp : UpstreamResponse)
    (hGet : req.isGet = true)
    (hStats : req.requestURI ≠ cfg.statsRequestPath)
    (hInm : req.hasIfNoneMatch = false)
    (hMiss : w.cacheGet = .missErr)
    (hUp : w.upstream = .ok resp)
    (h200 : resp.statusCode = 200)
    (hFail : (w.txn.beginOk && writesOk w.txn resp && w.txn.commitOk) = false) :
    (requestHandler cfg req w).outcome = .serviceUnavailable ∧
    hasCommit (requestHandler cfg req w).txnEvents = false ∧
    (w.txn.beginOk = false ∨
     hasRollback (requestHandler cfg req w).txnEvents = true ∨
     (writesOk w.txn resp = true ∧ w.txn.commitOk = false)) := by
  have hm := requestHandler_miss_run cfg req w hGet hStats hInm hMiss
  have hf := fetch_step_failure w resp hUp h200 hFail
  exact ⟨hm.2 hf.1, by rw [hm.1]; exact hf.2.1, by rw [hm.1]; exact hf.2.2⟩

theorem c5_txn_failure_amended_witness :
    (requestHandler ⟨[47, 115], false, [117]⟩ ⟨true, [47, 120], [104], false⟩
        ⟨.missErr, .ok ⟨200, [97], [66]⟩, ⟨true, true, false, some 1, true⟩⟩).outcome
      = .serviceUnavailable ∧
    hasCommit (requestHandler ⟨[47, 115], false, [117]⟩
        ⟨true, [47, 120], [104], false⟩
        ⟨.missErr, .ok ⟨200, [97], [66]⟩,
         ⟨true, true, false, some 1, true⟩⟩).txnEvents = false ∧
    ((⟨true, true, false, some 1, true⟩ : TxnOracle).beginOk = false ∨
     hasRollback (requestHandler ⟨[47, 115], false, [117]⟩
        ⟨true, [47, 120], [104], false⟩
        ⟨.missErr, .ok ⟨200, [97], [66]⟩,
         ⟨true, true, false, some 1, true⟩⟩).txnEvents = true ∨
     (writesOk ⟨true, true, false, some 1, true⟩ ⟨200, [97], [66]⟩ = true ∧
      (⟨true, true, false, some 1, true⟩ : TxnOracle).commitOk = false)) :=
  c5_txn_failure_amended ⟨[47, 115], false, [117]⟩ ⟨true, [47, 120], [104], false⟩
    ⟨.missErr, .ok ⟨200, [97], [66]⟩, ⟨true, true, false, some 1, true⟩⟩
    ⟨200, [97], [66]⟩ rfl (by decide) rfl rfl rfl rfl (by decide)

theorem host_append_inj (h1 : List Nat) : ∀ (h2 u1 u2 : List Nat),
    (∀ b ∈ h1, b ≠ 47) → (∀ b ∈ h2, b ≠ 47) →
    u1.head? = some 47 → u2.head? = some 47 →
    h1 ++ u1 = h2 ++ u2 → h1 = h2 := by
  induction h1 with
  | nil =>
    intro h2 u1 u2 hh1 hh2 hu1 hu2 heq
    cases h2 with
    | nil => rfl
    | cons b t =>
      exfalso
      simp only [List.nil_append, List.cons_append] at heq
      have hb : u1.head? = some b := by rw [heq]; rfl
      rw [hu1] at hb
      exact hh2 b (List.mem_cons_self b t) (Option.some.inj hb).symm
  | cons a t1 ih =>
    intro h2 u1 u2 hh1 hh2 hu1 hu2 heq
    cases h2 with
    | nil =>
      exfalso
      simp only [List.cons_append, List.nil_append] at heq
      have ha : u2.head? = some a := by rw [← heq]; rfl
      rw [hu2] at ha
      exact hh1 a (List.mem_cons_self a t1) (Option.some.inj ha).symm
    | cons b t2 =>
      simp only [List.cons_append, List.cons.injEq] at heq
      obtain ⟨hab, htail⟩ := heq
      have ht12 : t1 = t2 :=
        ih t2 u1 u2 (fun x hx => hh1 x (List.mem_cons_of_mem a hx))
          (fun x hx => hh2 x (List.mem_cons_of_mem b hx)) hu1 hu2 htail
      rw [hab, ht12]

/-- Claim C7 counterexample: with `useClientRequestHost` enabled, the
request with client host `ab` and URI `/c` and the request with client
host `a` and URI `b/c` have different selected hosts yet byte-identical
cache keys (`ab/c`), contradicting the claim that requests whose selected
hosts differ never produce colliding keys. -/
theorem c7_key_collision_counterexample :
    getRequestHost ⟨[47, 115], true, [117]⟩ ⟨true, [47, 99], [97, 98], false⟩ ≠
      getRequestHost ⟨[47, 115], true, [117]⟩ ⟨true, [98, 47, 99], [97], false⟩ ∧
    requestKey ⟨[47, 115], true, [117]⟩ ⟨true, [47, 99], [97, 98], false⟩ =
      requestKey ⟨[47, 115], true, [117]⟩ ⟨true, [98, 47, 99], [97], false⟩ := by
  decide

/-- Claim C7 as amended: the cache key is exactly the selected host bytes
concatenated with the request path-and-query, so any two requests with
identical host-selection result and identical path+query yield
byte-identical keys; and under the additional assumptions that each
selected host contains no slash byte (0x2F) and each request URI begins
with a slash — true of well-formed hosts and origin-form request targets —
two requests whose selected hosts differ never produce colliding keys.
Without those assumptions collisions exist (see the counterexample). -/
theorem c7_key_determinism_amended (cfg : Config) (r1 r2 : Request) :
    (getRequestHost cfg r1 = getRequestHost cfg r2 →
       r1.requestURI = r2.requestURI →
       requestKey cfg r1 = requestKey cfg r2) ∧
    ((∀ b ∈ getRequestHost cfg r1, b ≠ 47) →
     (∀ b ∈ getRequestHost cfg r2, b ≠ 47) →
     r1.requestURI.head? = some 47 →
     r2.requestURI.head? = some 47 →
     getRequestHost cfg r1 ≠ getRequestHost cfg r2 →
     requestKey cfg r1 ≠ requestKey cfg r2) := by
  constructor
  · intro hh hu
    simp [requestKey, hh, hu]
  · intro hh1 hh2 hu1 hu2 hne hkey
    exact hne (host_append_inj _ _ _ _ hh1 hh2 hu1 hu2 hkey)

theorem c7_key_determinism_amended_witness :
    requestKey ⟨[47, 115], true, [117]⟩ ⟨true, [47, 120], [104, 49], false⟩ ≠
      requestKey ⟨[47, 115], true, [117]⟩ ⟨true, [47, 120], [104, 50], false⟩ :=
  (c7_key_determinism_amended ⟨[47, 115], true, [117]⟩
      ⟨true, [47, 120], [104, 49], false⟩ ⟨true, [47, 120], [104, 50], false⟩).2
    (by decide) (by decide) rfl rfl (by decide)

end CdnBooster
